import Mathlib

/-!
Verification model of the telegram_finance_bot repository.

The development is a shallow embedding of the two source modules:
  - notion_manager.py : property normalization (text_of_title and friends,
    coerce_prop_value, NotionManager.normalize_page), the paginated fetch
    loop (NotionManager.read_rows) and the category update call.
  - telegram_manager.py : the BotManager state (user_messages, callback_map),
    the ticket mint (_store_cb), keyboard construction (_keyboard_for),
    the review command (categorise_transactions) and the button-tap
    callback handler (handle_set_type).

External collaborators (the Notion query endpoint and the Telegram
transport) are modelled at their interface boundary: the remote store is a
list of rows served in pages with a cursor and a has_more flag, and each
fallible transport call is driven by an explicit outcome supplied in an
environment record.  Effects (messages sent, edits, deletes, callback
acknowledgements, update calls) are recorded in an effect list.
-/

/- ──────────────────────── Python dict operations ──────────────────────── -/

/-- Lookup in an association list, modelling Python `d.get(k)` / `d[k]`. -/
def dictGet {κ α : Type} [DecidableEq κ] : List (κ × α) → κ → Option α
  | [], _ => none
  | (k', v) :: rest, k => if k' = k then some v else dictGet rest k

/-- Lookup with default, modelling Python `d.get(k, dflt)`. -/
def dictGetD {κ α : Type} [DecidableEq κ] (m : List (κ × α)) (k : κ) (dflt : α) : α :=
  (dictGet m k).getD dflt

/-- Removal of a key, used to model Python `dict.pop`. -/
def dictErase {κ α : Type} [DecidableEq κ] (m : List (κ × α)) (k : κ) : List (κ × α) :=
  m.filter (fun p => p.1 ≠ k)

/-- Assignment `d[k] = v` on a Python dict (overwrites any previous binding). -/
def dictSet {κ α : Type} [DecidableEq κ] (m : List (κ × α)) (k : κ) (v : α) : List (κ × α) :=
  (k, v) :: dictErase m k

/-- Python `d.pop(k)`: `none` models the raised KeyError. -/
def dictPop {κ α : Type} [DecidableEq κ] (m : List (κ × α)) (k : κ) :
    Option (α × List (κ × α)) :=
  match dictGet m k with
  | none => none
  | some v => some (v, dictErase m k)

/- ─────────────── secrets.token_urlsafe (Python standard library) ─────────────── -/

/-- Modelled from the spec: the URL-safe base64 alphabet used by
`secrets.token_urlsafe` (telegram_manager.py line 38), index to character. -/
def b64urlChar (n : Nat) : Char :=
  if n < 26 then Char.ofNat (65 + n)
  else if n < 52 then Char.ofNat (97 + (n - 26))
  else if n < 62 then Char.ofNat (48 + (n - 52))
  else if n = 62 then Char.ofNat 45
  else Char.ofNat 95

/-- Inverse character table of the URL-safe base64 alphabet. -/
def b64CharVal (ch : Char) : Nat :=
  if 65 ≤ ch.toNat ∧ ch.toNat ≤ 90 then ch.toNat - 65
  else if 97 ≤ ch.toNat ∧ ch.toNat ≤ 122 then ch.toNat - 97 + 26
  else if 48 ≤ ch.toNat ∧ ch.toNat ≤ 57 then ch.toNat - 48 + 52
  else if ch.toNat = 45 then 62
  else 63

/-- Base64 six-bit groups of a byte string (bytes given as naturals below 256). -/
def b64Sextets : List Nat → List Nat
  | a :: b :: c :: rest =>
      [a / 4, (a % 4) * 16 + b / 16, (b % 16) * 4 + c / 64, c % 64] ++ b64Sextets rest
  | [a, b] => [a / 4, (a % 4) * 16 + b / 16, (b % 16) * 4]
  | [a] => [a / 4, (a % 4) * 16]
  | [] => []

/-- Modelled from the spec: `secrets.token_urlsafe` applied to the drawn random
bytes — URL-safe base64 without padding.  For the six random bytes drawn at
telegram_manager.py line 38 this yields an eight-character key. -/
def token_urlsafe (bytes : List Nat) : String :=
  List.asString ((b64Sextets bytes).map b64urlChar)

/- ──────────────────── Notion property model (notion_manager.py) ──────────────────── -/

/-- One rich-text piece: Python reads `piece.get("plain_text", "")`, so the
field may be absent. -/
structure RTPiece where
  plain_text : Option String
deriving DecidableEq

/-- Payload of a date property: Python reads `d.get("start")` with no default. -/
structure DateObj where
  start : Option String
deriving DecidableEq

/-- Payload of a select option / multi-select tag: `sel.get("name")`. -/
structure SelObj where
  name : Option String
deriving DecidableEq

/-- Payload of a formula property, tagged by `f.get("type")`
(notion_manager.py lines 43-50). -/
inductive FormulaVal where
  | fstring (s : Option String)
  | fnumber (n : Option Int)
  | fboolean (b : Option Bool)
  | fdate (d : Option DateObj)
  | funknown
deriving DecidableEq

/-- A Notion property object, tagged by its `type` field.  `unknown` covers a
missing or unsupported type tag (the default branch of coerce_prop_value).
Numbers are modelled as integers. -/
inductive NotionProp where
  | title (arr : List RTPiece)
  | rich_text (arr : List RTPiece)
  | select (sel : Option SelObj)
  | multi_select (tags : List SelObj)
  | date (d : Option DateObj)
  | number (n : Option Int)
  | checkbox (v : Option Bool)
  | formula (f : FormulaVal)
  | relation (ids : List String)
  | unknown
deriving DecidableEq

/-- text_of_title (notion_manager.py lines 15-18): join the plain_text of the
title pieces; a non-title property has no "title" key, giving the empty
string. -/
def text_of_title (prop : NotionProp) : String :=
  match prop with
  | .title arr => String.join (arr.map (fun piece => piece.plain_text.getD ""))
  | _ => ""

/-- text_of_rich (notion_manager.py lines 20-22). -/
def text_of_rich (prop : NotionProp) : String :=
  match prop with
  | .rich_text arr => String.join (arr.map (fun piece => piece.plain_text.getD ""))
  | _ => ""

/-- text_of_select (notion_manager.py lines 24-26): `sel.get("name") if sel
else ""`; the result is `None` (here `none`) when the option has no name. -/
def text_of_select (prop : NotionProp) : Option String :=
  match prop with
  | .select (some sel) => sel.name
  | _ => some ""

/-- text_of_multi (notion_manager.py lines 28-29). -/
def text_of_multi (prop : NotionProp) : String :=
  match prop with
  | .multi_select tags => String.intercalate ", " (tags.map (fun tag => tag.name.getD ""))
  | _ => ""

/-- text_of_date (notion_manager.py lines 31-33): `d.get("start") if d else
""`; `none` models the Python `None` returned when the date object has no
start. -/
def text_of_date (prop : NotionProp) : Option String :=
  match prop with
  | .date (some d) => d.start
  | _ => some ""

/-- text_of_number (notion_manager.py lines 35-37). -/
def text_of_number (prop : NotionProp) : String :=
  match prop with
  | .number (some n) => toString n
  | _ => ""

/-- text_of_checkbox (notion_manager.py lines 39-41): a missing value is falsy. -/
def text_of_checkbox (prop : NotionProp) : String :=
  match prop with
  | .checkbox (some true) => "true"
  | _ => "false"

/-- text_of_formula (notion_manager.py lines 43-50). -/
def text_of_formula (prop : NotionProp) : String :=
  match prop with
  | .formula (.fstring s) => s.getD ""
  | .formula (.fnumber (some n)) => toString n
  | .formula (.fnumber none) => ""
  | .formula (.fboolean (some true)) => "true"
  | .formula (.fboolean _) => "false"
  | .formula (.fdate (some d)) => d.start.getD ""
  | .formula (.fdate none) => ""
  | _ => ""

/-- coerce_prop_value (notion_manager.py lines 52-66).  The Python annotation
says `str` but the select and date branches can return `None`; the result type
is therefore `Option String`, `none` standing for Python `None`. -/
def coerce_prop_value (prop : NotionProp) : Option String :=
  match prop with
  | .title _ => some (text_of_title prop)
  | .rich_text _ => some (text_of_rich prop)
  | .select _ => text_of_select prop
  | .multi_select _ => some (text_of_multi prop)
  | .date _ => text_of_date prop
  | .number _ => some (text_of_number prop)
  | .checkbox _ => some (text_of_checkbox prop)
  | .formula _ => some (text_of_formula prop)
  | _ => some ""

/-- A Notion page (row): its id, its url (`page.get("url", "")`) and its
property bag in dict order. -/
structure NotionPage where
  id : String
  url : String
  properties : List (String × NotionProp)
deriving DecidableEq

/-- The record normalize_page returns (notion_manager.py lines 216-223). -/
structure NormRecord where
  page_id : String
  title : String
  date : String
  amount : String
  url : String
  has_expense_type : Bool
deriving DecidableEq

/-- Configured property names, set in NotionManager.__init__
(notion_manager.py lines 76-79). -/
def prop_expense_type : String := "Expense Type"

/-- Configured title property name (notion_manager.py line 77). -/
def prop_title : String := "Expense Record"

/-- Configured date property name (notion_manager.py line 78). -/
def prop_date : String := "Date"

/-- Configured amount property name (notion_manager.py line 79). -/
def prop_amount : String := "Amount"

/-- Python truthiness fallback `v or dflt` for a string-or-None value
(`None` and `""` are both falsy). -/
def pyOr (v : Option String) (dflt : String) : String :=
  match v with
  | none => dflt
  | some s => if s = "" then dflt else s

/-- Checks the type tag of a property, modelling `p.get("type") == "title"`. -/
def isTitleType (p : NotionProp) : Bool :=
  match p with
  | .title _ => true
  | _ => false

/-- Checks the type tag of a property, modelling `p.get("type") == "date"`. -/
def isDateType (p : NotionProp) : Bool :=
  match p with
  | .date _ => true
  | _ => false

/-- Checks the type tag of a property, modelling `p.get("type") == "number"`. -/
def isNumberType (p : NotionProp) : Bool :=
  match p with
  | .number _ => true
  | _ => false

/-- Title extraction in normalize_page (notion_manager.py lines 191-195):
the first property of type title, coerced; otherwise the initial `""`. -/
def titleOf (props : List (String × NotionProp)) : Option String :=
  match props.find? (fun q => isTitleType q.2) with
  | some q => coerce_prop_value q.2
  | none => some ""

/-- Fallback date extraction (notion_manager.py lines 202-205): the first
property of type date, coerced; otherwise the initial `""`. -/
def fallbackDate (props : List (String × NotionProp)) : Option String :=
  match props.find? (fun q => isDateType q.2) with
  | some q => coerce_prop_value q.2
  | none => some ""

/-- Date extraction in normalize_page (notion_manager.py lines 198-205):
prefer the configured "Date" property when its type matches. -/
def dateValOf (props : List (String × NotionProp)) : Option String :=
  match dictGet props prop_date with
  | some p => if isDateType p then text_of_date p else fallbackDate props
  | none => fallbackDate props

/-- Fallback amount extraction (notion_manager.py lines 211-214). -/
def fallbackAmount (props : List (String × NotionProp)) : Option String :=
  match props.find? (fun q => isNumberType q.2) with
  | some q => coerce_prop_value q.2
  | none => some ""

/-- Amount extraction in normalize_page (notion_manager.py lines 207-214):
prefer the configured "Amount" property when its type matches. -/
def amountValOf (props : List (String × NotionProp)) : Option String :=
  match dictGet props prop_amount with
  | some p => if isNumberType p then some (text_of_number p) else fallbackAmount props
  | none => fallbackAmount props

/-- NotionManager.normalize_page (notion_manager.py lines 186-223). -/
def normalize_page (page : NotionPage) : NormRecord :=
  { page_id := page.id
    title := pyOr (titleOf page.properties) "(untitled)"
    date := pyOr (dateValOf page.properties) "—"
    amount := pyOr (amountValOf page.properties) "—"
    url := page.url
    has_expense_type := false }

/- ──────────────── Remote store model and the fetch loop ──────────────── -/

/-- Executable lexicographic comparison on character lists, used to model the
server-side date-descending sort on ISO date strings. -/
def lexLe : List Char → List Char → Bool
  | [], _ => true
  | _ :: _, [] => false
  | a :: as, b :: bs =>
    if a.toNat < b.toNat then true
    else if b.toNat < a.toNat then false
    else lexLe as bs

/-- String comparison through lexLe. -/
def strLe (a b : String) : Bool := lexLe a.data b.data

/-- Sort key of a row: the start of its "Date" property (empty when absent). -/
def dateKey (pg : NotionPage) : String :=
  match dictGet pg.properties prop_date with
  | some (.date (some d)) => d.start.getD ""
  | _ => ""

/-- Date-descending order on rows, as requested by sort_query
(notion_manager.py line 104). -/
def pageGe (a b : NotionPage) : Prop := strLe (dateKey b) (dateKey a) = true

instance : DecidableRel pageGe :=
  fun a b => inferInstanceAs (Decidable (strLe (dateKey b) (dateKey a) = true))

/-- Modelled from the spec: the query filter of notion_manager.py lines
98-103 — the "Date" property is a non-empty date and the "Expense Type"
relation is empty. -/
def matchesFilter (pg : NotionPage) : Bool :=
  (match dictGet pg.properties prop_date with
   | some (.date (some _)) => true
   | _ => false)
  &&
  (match dictGet pg.properties prop_expense_type with
   | some (.relation ids) => ids.isEmpty
   | _ => false)

/-- The remote data source: its raw rows. -/
structure StoreModel where
  rows : List NotionPage
deriving DecidableEq

/-- Modelled from the spec: the rows matching the fixed filter, in the
date-descending order the store serves them. -/
def matchedRows (store : StoreModel) : List NotionPage :=
  List.insertionSort pageGe (store.rows.filter matchesFilter)

/-- The JSON a query returns: results, has_more, next_cursor
(notion_manager.py lines 121-143). -/
structure QueryResult where
  results : List NotionPage
  has_more : Bool
  next_cursor : Option Nat
deriving DecidableEq

/-- Modelled from the spec: NotionManager.query_rows as the remote endpoint
answers it — one page of the filtered, sorted rows starting at the cursor. -/
def query_rows (store : StoreModel) (page_size : Nat) (cursor : Option Nat) : QueryResult :=
  let c := cursor.getD 0
  { results := ((matchedRows store).drop c).take page_size
    has_more := c + page_size < (matchedRows store).length
    next_cursor := some (c + page_size) }

/-- Result of the inner `for page in data["results"]` loop of read_rows:
either the function returned, or the loop fell through to the pagination
check. -/
inductive InnerRes where
  | done (recs : List NormRecord) (idx : List (String × NormRecord))
  | through (seen : Nat) (recs : List NormRecord) (idx : List (String × NormRecord))

/-- The inner record loop of read_rows (notion_manager.py lines 165-179):
append the normalized page, count it, return once `seen` reaches the limit
or — the early-return guard — the length of the current page. -/
def read_pages (limit pageLen : Nat) :
    List NotionPage → Nat → List NormRecord → List (String × NormRecord) → InnerRes
  | [], seen, acc, idx => .through seen acc idx
  | p :: rest, seen, acc, idx =>
    let rec1 := normalize_page p
    let acc1 := acc ++ [rec1]
    let idx1 := dictSet idx rec1.page_id rec1
    let seen1 := seen + 1
    if seen1 ≥ limit then .done acc1 idx1
    else if seen1 ≥ pageLen then .done acc1 idx1
    else read_pages limit pageLen rest seen1 acc1 idx1

/-- The outer `for _ in range(self.page_size)` loop of read_rows
(notion_manager.py lines 156-184).  `none` models the implicit Python `None`
returned when the loop breaks or the iteration bound runs out. -/
def read_rows_loop (store : StoreModel) (limit : Nat) :
    Nat → Nat → List NormRecord → List (String × NormRecord) → Option Nat →
    Option (List NormRecord × List (String × NormRecord))
  | 0, _, _, _, _ => none
  | fuel + 1, seen, acc, idx, cursor =>
    let ps := min 50 (limit - seen)
    let data := query_rows store ps cursor
    if data.results.isEmpty then some (acc, idx)
    else
      match read_pages limit data.results.length data.results seen acc idx with
      | .done acc1 idx1 => some (acc1, idx1)
      | .through seen1 acc1 idx1 =>
        if !data.has_more then none
        else read_rows_loop store limit fuel seen1 acc1 idx1 data.next_cursor

/-- NotionManager.read_rows (notion_manager.py lines 146-184):
self.page_size is 50, used both as the page size cap and the outer
iteration bound. -/
def read_rows (store : StoreModel) (limit : Nat) :
    Option (List NormRecord × List (String × NormRecord)) :=
  read_rows_loop store limit 50 0 [] [] none

/- ──────────────── Bot state and effects (telegram_manager.py) ──────────────── -/

/-- The mutable BotManager state (telegram_manager.py lines 22-26):
user_messages maps a chat id to the message ids sent there, callback_map maps
a short ticket key to the (transaction page id, expense type page id) pair.
mint_chat is ghost instrumentation only: it records, for each minted key, the
conversation whose rendering minted it; no handler reads it. -/
structure BotState where
  user_messages : List (Int × List Int)
  callback_map : List (String × (String × String))
  mint_chat : List (String × Int)
deriving DecidableEq

/-- The empty maps the BotManager constructor builds. -/
def initState : BotState := { user_messages := [], callback_map := [], mint_chat := [] }

/-- One observable call to the chat transport or the remote store, recorded
in program order.  An entry records the attempt, whether or not the call
succeeded. -/
inductive Eff where
  | answer (text : String) (alert : Bool)
  | setType (txn exp : String)
  | removeMarkup (chat msg : Int)
  | editText (text : String) (chat msg : Int)
  | send (chat : Int) (text : String)
  | delete (chat msg : Int)
deriving DecidableEq

/-- Python html.escape on one character (quote=True default). -/
def htmlEscapeChar (c : Char) : String :=
  if c = Char.ofNat 38 then "&amp;"
  else if c = Char.ofNat 60 then "&lt;"
  else if c = Char.ofNat 62 then "&gt;"
  else if c = Char.ofNat 34 then "&quot;"
  else if c = Char.ofNat 39 then "&#x27;"
  else String.singleton c

/-- Python html.escape. -/
def htmlEscape (s : String) : String := String.join (s.data.map htmlEscapeChar)

/-- BotManager._format_record (telegram_manager.py lines 59-65). -/
def format_record (rec : NormRecord) : String :=
  let parts := ["<b>" ++ htmlEscape rec.title ++ "</b>"]
  let parts := if rec.date ≠ "" then parts ++ ["Date: " ++ htmlEscape rec.date] else parts
  let parts := if rec.amount ≠ "" then parts ++ ["Amount: " ++ htmlEscape rec.amount] else parts
  let parts := if rec.url ≠ "" then
      parts ++ ["<a href=\x22" ++ rec.url ++ "\x22>Open in Notion</a>"]
    else parts
  String.intercalate "\n" parts

/-- The check `c.data and c.data.startswith("SET:")` (telegram_manager.py
line 121) on a present data string. -/
def isSetData (s : String) : Bool :=
  match s.data with
  | 'S' :: 'E' :: 'T' :: ':' :: _ => true
  | _ => false

/-- The key extraction `c.data.split(":", 1)[1]` (telegram_manager.py line
125): for a string passing the "SET:" prefix check the first colon is at
index 3, so the second split component is everything from index 4. -/
def setKey (s : String) : String := List.asString (s.data.drop 4)

/-- BotManager._store_cb (telegram_manager.py lines 36-40): the key is the
URL-safe token of the six random bytes drawn, and the pair is stored under
it. -/
def store_cb (st : BotState) (txn_page_id expense_type_page_id : String)
    (entropy : List Nat) : BotState × String :=
  let key := token_urlsafe entropy
  ({ st with callback_map := dictSet st.callback_map key (txn_page_id, expense_type_page_id) },
   key)

/-- The mint loop of BotManager._keyboard_for (telegram_manager.py lines
47-51): one ticket per category with a configured id; categories with a
missing id are skipped.  The ghost mint_chat map additionally records the
conversation the keyboard is being rendered for. -/
def mintButtons (st : BotState) (chat : Int) (txn : String) :
    List (String × Option String) → List (List Nat) → BotState × List String
  | [], _ => (st, [])
  | (_, none) :: rest, ents => mintButtons st chat txn rest ents
  | (_, some exp_id) :: rest, ents =>
    let minted := store_cb st txn exp_id (ents.headD [])
    let st2 := { minted.1 with mint_chat := dictSet minted.1.mint_chat minted.2 chat }
    let tail := mintButtons st2 chat txn rest ents.tail
    (tail.1, minted.2 :: tail.2)

/-- BotManager._keyboard_for (telegram_manager.py lines 42-57): the callback
keys carried by the keyboard buttons; when no category has a configured id
the single sentinel key "disabled" is used instead. -/
def keyboard_for (cfg : List (String × Option String)) (st : BotState) (chat : Int)
    (txn : String) (ents : List (List Nat)) : BotState × List String :=
  let minted := mintButtons st chat txn cfg ents
  if minted.2.isEmpty then (minted.1, ["disabled"]) else minted

/-- The message-log bookkeeping at the start of categorise_transactions
(telegram_manager.py lines 78-83): read the conversation's logged ids
(default empty) and reset the log to the empty list. -/
def drain_and_clear (st : BotState) (chat : Int) : List Int × BotState :=
  (dictGetD st.user_messages chat [],
   { st with user_messages := dictSet st.user_messages chat [] })

/-- The unguarded append `self.user_messages[chat].append(mid)`
(telegram_manager.py lines 87, 116 and 166): `none` models the KeyError
raised when the chat has no entry. -/
def appendMsg (st : BotState) (chat : Int) (mid : Int) : Option BotState :=
  match dictGet st.user_messages chat with
  | none => none
  | some l => some { st with user_messages := dictSet st.user_messages chat (l ++ [mid]) }

/-- Outcome of the `notion_bot.read_rows(limit=50)` call as categorise sees
it: the unpacked records, a raised ValueError (caught at line 96), or any
other raised error (uncaught, propagates). -/
inductive FetchOutcome where
  | ok (records : List NormRecord)
  | valueError
  | upstream

/-- Environment of one categorise_transactions run: the message id Telegram
assigns to the loading message, the fetch outcome, the message ids of the
per-record sends, and the random bytes drawn for each record's keyboard. -/
structure ReviewEnv where
  loading_id : Int
  fetch : FetchOutcome
  send_ids : List Int
  entropies : List (List (List Nat))

/-- Result of a categorise_transactions run. -/
structure ReviewOut where
  state : BotState
  effects : List Eff
  raised : Bool

/-- The per-record send loop of categorise_transactions (telegram_manager.py
lines 112-116): render the body, mint the keyboard, send, and log the sent
message id. -/
def send_records (cfg : List (String × Option String)) (st : BotState) (chat : Int) :
    List NormRecord → List Int → List (List (List Nat)) → BotState × List Eff × Bool
  | [], _, _ => (st, [], false)
  | rec :: rest, mids, ents =>
    let kb := keyboard_for cfg st chat rec.page_id (ents.headD [])
    let eff := Eff.send chat (format_record rec)
    match appendMsg kb.1 chat (mids.headD 0) with
    | none => (kb.1, [eff], true)
    | some st2 =>
      let tail := send_records cfg st2 chat rest mids.tail ents.tail
      (tail.1, eff :: tail.2.1, tail.2.2)

/-- BotManager.categorise_transactions (telegram_manager.py lines 74-116):
delete every previously logged message best-effort, reset the log, send and
log the loading message, then either report the fetch error, report an empty
batch, or turn the loading message into a header and send one logged message
per record.  The loading send and the edits are assumed delivered; the header
edit failure is swallowed by the source (lines 105-109) without any other
observable difference. -/
def categorise_transactions (cfg : List (String × Option String)) (st : BotState)
    (chat : Int) (env : ReviewEnv) : ReviewOut :=
  let drained := drain_and_clear st chat
  let effD := drained.1.map (fun m => Eff.delete chat m)
  let effL := Eff.send chat "🔎 Gathering transactions, please wait…"
  match appendMsg drained.2 chat env.loading_id with
  | none => { state := drained.2, effects := effD ++ [effL], raised := true }
  | some st2 =>
    match env.fetch with
    | .upstream => { state := st2, effects := effD ++ [effL], raised := true }
    | .valueError =>
      { state := st2
        effects := effD ++ [effL,
          Eff.editText "✅ Nothing to categorise. ValueError encountered" chat env.loading_id]
        raised := false }
    | .ok records =>
      if records.isEmpty then
        { state := st2
          effects := effD ++ [effL, Eff.editText "✅ Nothing to categorise." chat env.loading_id]
          raised := false }
      else
        let effH := Eff.editText
          ("Found " ++ toString records.length ++ " uncategorised record(s):") chat env.loading_id
        let rest := send_records cfg st2 chat records env.send_ids env.entropies
        { state := rest.1, effects := effD ++ [effL, effH] ++ rest.2.1, raised := rest.2.2 }

/-- Environment of one handle_set_type run: whether set_expense_type
succeeds, whether edit_message_reply_markup succeeds (its failure is
swallowed), whether the success-annotation edit succeeds, whether the
fallback confirmation send succeeds, the outcome of the error-path send
(`some mid` on success), and the exception texts. -/
structure TapEnv where
  update_ok : Bool
  remove_ok : Bool
  edit_ok : Bool
  confirm_send_ok : Bool
  err_send : Option Int
  update_err : String
  send_err : String

/-- Result of a handle_set_type run.  `raised` records an exception escaping
the handler; `keyError` marks the specific KeyError of the unguarded
`self.user_messages[chat].append` on the failure path (line 166). -/
structure TapOut where
  state : BotState
  effects : List Eff
  raised : Bool
  keyError : Bool

/-- The `except Exception` block of handle_set_type (telegram_manager.py
lines 162-166): acknowledge with the failure note, send the error detail,
and log that message id via the unguarded dict access. -/
def failPath (st1 : BotState) (chat : Int) (env : TapEnv) (effs : List Eff)
    (etext : String) : TapOut :=
  let effs1 := effs ++ [Eff.answer "Update failed ❌" false,
    Eff.send chat ("❌ Failed: <code>" ++ htmlEscape etext ++ "</code>")]
  match env.err_send with
  | none => { state := st1, effects := effs1, raised := true, keyError := false }
  | some mid =>
    match dictGet st1.user_messages chat with
    | none => { state := st1, effects := effs1, raised := true, keyError := true }
    | some l =>
      { state := { st1 with user_messages := dictSet st1.user_messages chat (l ++ [mid]) }
        effects := effs1, raised := false, keyError := false }

/-- The `try` block around the Notion update (telegram_manager.py lines
147-166), entered after the ticket was popped: attempt set_expense_type; on
success acknowledge, remove the keyboard best-effort, and annotate the
message, falling back to a standalone confirmation; any exception — from the
update or from the fallback send — lands in the except block. -/
def afterPop (st1 : BotState) (txn exp : String) (chat msg : Int) (msgText : String)
    (env : TapEnv) : TapOut :=
  if env.update_ok then
    let base := [Eff.setType txn exp, Eff.answer "Updated ✅" false, Eff.removeMarkup chat msg]
    let withEdit := base ++ [Eff.editText (msgText ++ "\n\n✅ Categorised.") chat msg]
    if env.edit_ok then
      { state := st1, effects := withEdit, raised := false, keyError := false }
    else
      let withSend := withEdit ++ [Eff.send chat "✅ Categorised."]
      if env.confirm_send_ok then
        { state := st1, effects := withSend, raised := false, keyError := false }
      else failPath st1 chat env withSend env.send_err
  else failPath st1 chat env [Eff.setType txn exp] env.update_err

/-- BotManager.handle_set_type (telegram_manager.py lines 119-166): guard on
the "SET:" prefix, answer the "disabled" sentinel, pop the ticket (answering
"Invalid/expired button." on a KeyError), then run the update attempt.
The callback parameters are the tapped message's chat id, message id and
text. -/
def handle_set_type (st : BotState) (cdata : Option String) (chat msg : Int)
    (msgText : String) (env : TapEnv) : TapOut :=
  match cdata with
  | none => { state := st, effects := [Eff.answer "Ignoring." false],
              raised := false, keyError := false }
  | some data =>
    if isSetData data then
      let key := setKey data
      if key = "disabled" then
        { state := st, effects := [Eff.answer "No categories configured." true],
          raised := false, keyError := false }
      else
        match dictPop st.callback_map key with
        | none =>
          { state := st, effects := [Eff.answer "Invalid/expired button." false],
            raised := false, keyError := false }
        | some popped =>
          afterPop { st with callback_map := popped.2 } popped.1.1 popped.1.2
            chat msg msgText env
    else
      { state := st, effects := [Eff.answer "Ignoring." false],
        raised := false, keyError := false }

/- ──────────────── Reachable states and the log-entry invariant ──────────────── -/

/-- Invariant relating tickets to conversations: every key in the ticket
store was minted for a conversation that has an entry (possibly empty) in
the message log. -/
def MintedInv (st : BotState) : Prop :=
  ∀ k pr, dictGet st.callback_map k = some pr →
    ∃ c, dictGet st.mint_chat k = some c ∧ (dictGet st.user_messages c).isSome

/-- Validity of a delivered tap: a Telegram callback arrives attached to the
message carrying the tapped button, so when its key is live in the ticket
store the callback's chat is the conversation the key was minted for. -/
def tapOk (st : BotState) (chat : Int) (cdata : Option String) : Bool :=
  match cdata with
  | none => true
  | some data =>
    if isSetData data then
      match dictGet st.callback_map (setKey data) with
      | some _ => decide (dictGet st.mint_chat (setKey data) = some chat)
      | none => true
    else true

/-- States reachable from the fresh BotManager by review commands and valid
button taps. -/
inductive Reaches (cfg : List (String × Option String)) : BotState → Prop where
  | init : Reaches cfg initState
  | review (st : BotState) (chat : Int) (env : ReviewEnv) :
      Reaches cfg st → Reaches cfg (categorise_transactions cfg st chat env).state
  | tap (st : BotState) (chat msg : Int) (cdata : Option String) (msgText : String)
      (env : TapEnv) : Reaches cfg st → tapOk st chat cdata = true →
      Reaches cfg (handle_set_type st cdata chat msg msgText env).state

/-- Delete effects of an effect list, with their targets. -/
def deletesOf (l : List Eff) : List (Int × Int) :=
  l.filterMap (fun e => match e with | .delete c m => some (c, m) | _ => none)

/-- Send effects of an effect list, with chat and text. -/
def sendsOf (l : List Eff) : List (Int × String) :=
  l.filterMap (fun e => match e with | .send c t => some (c, t) | _ => none)

/-- Whether an effect list contains a callback acknowledgement. -/
def hasAnswer (l : List Eff) : Bool :=
  l.any (fun e => match e with | .answer _ _ => true | _ => false)

/- ──────────────────────── Helper lemmas: dict operations ──────────────────────── -/

theorem dictGet_erase_self {κ α : Type} [DecidableEq κ] (m : List (κ × α)) (k : κ) :
    dictGet (dictErase m k) k = none := by
  induction m with
  | nil => rfl
  | cons p rest ih =>
    by_cases h : p.1 = k
    · simpa [dictErase, List.filter_cons, h] using ih
    · simpa [dictErase, List.filter_cons, h, dictGet] using ih

theorem dictGet_erase_ne {κ α : Type} [DecidableEq κ] (m : List (κ × α)) (k k2 : κ)
    (h : k2 ≠ k) : dictGet (dictErase m k) k2 = dictGet m k2 := by
  induction m with
  | nil => rfl
  | cons p rest ih =>
    simp only [dictErase] at ih ⊢
    by_cases hp : p.1 = k
    · simp [List.filter_cons, hp, dictGet, Ne.symm h]
      simpa using ih
    · by_cases hq : p.1 = k2
      · simp [List.filter_cons, hp, dictGet, hq, h]
      · simp [List.filter_cons, hp, dictGet, hq]
        simpa using ih

theorem dictGet_set_self {κ α : Type} [DecidableEq κ] (m : List (κ × α)) (k : κ) (v : α) :
    dictGet (dictSet m k v) k = some v := by
  simp [dictSet, dictGet]

theorem dictGet_set_ne {κ α : Type} [DecidableEq κ] (m : List (κ × α)) (k k2 : κ) (v : α)
    (h : k2 ≠ k) : dictGet (dictSet m k v) k2 = dictGet m k2 := by
  have : ¬ k = k2 := fun hk => h hk.symm
  simp [dictSet, dictGet, this, dictGet_erase_ne m k k2 h]

theorem dictGet_set_isSome {κ α : Type} [DecidableEq κ] (m : List (κ × α)) (k k2 : κ) (v : α)
    (h : (dictGet m k2).isSome) : (dictGet (dictSet m k v) k2).isSome := by
  by_cases hk : k2 = k
  · subst hk; simp [dictGet_set_self]
  · rw [dictGet_set_ne m k k2 v hk]; exact h

theorem dictGet_erase_sub {κ α : Type} [DecidableEq κ] (m : List (κ × α)) (k k2 : κ) (v : α)
    (h : dictGet (dictErase m k) k2 = some v) : dictGet m k2 = some v := by
  by_cases hk : k2 = k
  · subst hk; rw [dictGet_erase_self] at h; cases h
  · rwa [dictGet_erase_ne m k k2 hk] at h

theorem dictPop_eq_some {κ α : Type} [DecidableEq κ] (m : List (κ × α)) (k : κ) (v : α)
    (h : dictGet m k = some v) : dictPop m k = some (v, dictErase m k) := by
  simp [dictPop, h]

theorem dictPop_eq_none {κ α : Type} [DecidableEq κ] (m : List (κ × α)) (k : κ)
    (h : dictGet m k = none) : dictPop m k = none := by
  simp [dictPop, h]

/- ──────────────────────── Helper lemmas: lexicographic order ──────────────────────── -/

theorem lexLe_total (a b : List Char) : lexLe a b = true ∨ lexLe b a = true := by
  induction a generalizing b with
  | nil => left; rfl
  | cons x xs ih =>
    cases b with
    | nil => right; rfl
    | cons y ys =>
      by_cases h1 : x.toNat < y.toNat
      · left; simp [lexLe, h1]
      · by_cases h2 : y.toNat < x.toNat
        · right; simp [lexLe, h1, h2]
        · rcases ih ys with h | h
          · left; simp [lexLe, h1, h2, h]
          · right; simp [lexLe, h1, h2, h]

theorem lexLe_trans (a b c : List Char) (h1 : lexLe a b = true) (h2 : lexLe b c = true) :
    lexLe a c = true := by
  induction a generalizing b c with
  | nil => rfl
  | cons x xs ih =>
    cases b with
    | nil => simp [lexLe] at h1
    | cons y ys =>
      cases c with
      | nil => simp [lexLe] at h2
      | cons z zs =>
        simp only [lexLe] at h1 h2 ⊢
        split at h1
        · rename_i hxy
          split at h2
          · rename_i hyz
            have : x.toNat < z.toNat := lt_trans hxy hyz
            simp [this]
          · rename_i hyz
            split at h2
            · exact absurd h2 (by simp)
            · rename_i hzy
              have : x.toNat < z.toNat := by omega
              simp [this]
        · rename_i hxy
          split at h1
          · exact absurd h1 (by simp)
          · rename_i hyx
            split at h2
            · rename_i hyz
              have : x.toNat < z.toNat := by omega
              simp [this]
            · rename_i hyz
              split at h2
              · exact absurd h2 (by simp)
              · rename_i hzy
                have hxz : ¬ x.toNat < z.toNat := by omega
                have hzx : ¬ z.toNat < x.toNat := by omega
                simp [hxz, hzx]
                exact ih ys zs h1 h2

instance : IsTotal NotionPage pageGe :=
  ⟨fun a b => by
    rcases lexLe_total (dateKey b).data (dateKey a).data with h | h
    · left; exact h
    · right; exact h⟩

instance : IsTrans NotionPage pageGe :=
  ⟨fun a b c h1 h2 => lexLe_trans (dateKey c).data (dateKey b).data (dateKey a).data h2 h1⟩

/- ──────────────────────── Helper lemmas: token encoding ──────────────────────── -/

theorem b64_roundtrip : ∀ n : Nat, n < 64 → b64CharVal (b64urlChar n) = n := by decide

theorem sextet_val {n : Nat} (hn : n < 64) {ch : Char} (h : b64urlChar n = ch) :
    n = b64CharVal ch := by
  rw [← h, b64_roundtrip n hn]

theorem disabled_preimage (a b c d e f : Nat) (ha : a < 256) (hb : b < 256) (hc : c < 256)
    (hd : d < 256) (he : e < 256) (hf : f < 256)
    (h : token_urlsafe [a, b, c, d, e, f] = "disabled") :
    a = 118 ∧ b = 43 ∧ c = 26 ∧ d = 110 ∧ e = 87 ∧ f = 157 := by
  have hdata : (b64Sextets [a, b, c, d, e, f]).map b64urlChar = "disabled".data := by
    have h2 := congrArg String.data h
    simpa [token_urlsafe, List.asString] using h2
  have hlit : "disabled".data = ['d', 'i', 's', 'a', 'b', 'l', 'e', 'd'] := rfl
  rw [hlit] at hdata
  simp only [b64Sextets, List.cons_append, List.nil_append, List.map_cons, List.map_nil,
    List.cons.injEq, and_true] at hdata
  obtain ⟨h1, h2, h3, h4, h5, h6, h7, h8⟩ := hdata
  have e1 := sextet_val (by omega) h1
  have e2 := sextet_val (by omega) h2
  have e3 := sextet_val (by omega) h3
  have e4 := sextet_val (by omega) h4
  have e5 := sextet_val (by omega) h5
  have e6 := sextet_val (by omega) h6
  have e7 := sextet_val (by omega) h7
  have e8 := sextet_val (by omega) h8
  have v1 : b64CharVal 'd' = 29 := by decide
  have v2 : b64CharVal 'i' = 34 := by decide
  have v3 : b64CharVal 's' = 44 := by decide
  have v4 : b64CharVal 'a' = 26 := by decide
  have v5 : b64CharVal 'b' = 27 := by decide
  have v6 : b64CharVal 'l' = 37 := by decide
  have v7 : b64CharVal 'e' = 30 := by decide
  rw [v1] at e1 e8
  rw [v2] at e2
  rw [v3] at e3
  rw [v4] at e4
  rw [v5] at e5
  rw [v6] at e6
  rw [v7] at e7
  omega

/- ──────────────────────── Helper lemmas: callback data parsing ──────────────────────── -/

theorem isSetData_append (k : String) : isSetData ("SET:" ++ k) = true := rfl

theorem setKey_append (k : String) : setKey ("SET:" ++ k) = k := rfl

/- ──────────────────────── Helper lemmas: the fetch loop ──────────────────────── -/

theorem read_rows_loop_step (store : StoreModel) (limit fuel seen : Nat)
    (acc : List NormRecord) (idx : List (String × NormRecord)) (cursor : Option Nat) :
    read_rows_loop store limit (fuel + 1) seen acc idx cursor =
      (let ps := min 50 (limit - seen)
       let data := query_rows store ps cursor
       if data.results.isEmpty then some (acc, idx)
       else
         match read_pages limit data.results.length data.results seen acc idx with
         | .done acc1 idx1 => some (acc1, idx1)
         | .through seen1 acc1 idx1 =>
           if !data.has_more then none
           else read_rows_loop store limit fuel seen1 acc1 idx1 data.next_cursor) := rfl

theorem read_pages_step (limit pageLen : Nat) (p : NotionPage) (rest : List NotionPage)
    (seen : Nat) (acc : List NormRecord) (idx : List (String × NormRecord)) :
    read_pages limit pageLen (p :: rest) seen acc idx =
      (if seen + 1 ≥ limit then
        InnerRes.done (acc ++ [normalize_page p])
          (dictSet idx (normalize_page p).page_id (normalize_page p))
      else if seen + 1 ≥ pageLen then
        InnerRes.done (acc ++ [normalize_page p])
          (dictSet idx (normalize_page p).page_id (normalize_page p))
      else read_pages limit pageLen rest (seen + 1) (acc ++ [normalize_page p])
        (dictSet idx (normalize_page p).page_id (normalize_page p))) := rfl

theorem read_pages_complete (limit : Nat) (rs : List NotionPage) :
    ∀ (seen : Nat) (acc : List NormRecord) (idx : List (String × NormRecord)),
    seen + rs.length = limit → rs ≠ [] →
    ∃ idx2, read_pages limit limit rs seen acc idx =
      .done (acc ++ rs.map normalize_page) idx2 := by
  induction rs with
  | nil => intro seen acc idx _ hne; exact absurd rfl hne
  | cons p rest ih =>
    intro seen acc idx hlen _
    cases rest with
    | nil =>
      have hs : seen + 1 ≥ limit := by simp at hlen; omega
      refine ⟨dictSet idx (normalize_page p).page_id (normalize_page p), ?_⟩
      rw [read_pages_step, if_pos hs]
      simp
    | cons q t =>
      have hs : ¬ seen + 1 ≥ limit := by simp at hlen; omega
      obtain ⟨idx2, hrec⟩ := ih (seen + 1)
        (acc ++ [normalize_page p]) (dictSet idx (normalize_page p).page_id (normalize_page p))
        (by simp at hlen ⊢; omega) (by simp)
      refine ⟨idx2, ?_⟩
      rw [read_pages_step, if_neg hs, if_neg hs, hrec]
      simp

theorem read_rows_take (store : StoreModel) (limit : Nat) (h0 : 0 < limit)
    (h50 : limit ≤ 50) (hlen : limit ≤ (matchedRows store).length) :
    ∃ idx, read_rows store limit =
      some (((matchedRows store).take limit).map normalize_page, idx) := by
  have hmin : min 50 (limit - 0) = limit := by
    rw [Nat.sub_zero]; exact Nat.min_eq_right h50
  have hres : (query_rows store (min 50 (limit - 0)) none).results =
      (matchedRows store).take limit := by
    unfold query_rows
    simp only [Option.getD_none, List.drop_zero, hmin]
  have htlen : ((matchedRows store).take limit).length = limit := by
    rw [List.length_take]; exact Nat.min_eq_left hlen
  have hne : (matchedRows store).take limit ≠ [] := by
    intro hcon
    rw [hcon] at htlen
    simp at htlen
    omega
  obtain ⟨idx2, hip⟩ := read_pages_complete limit ((matchedRows store).take limit) 0 [] []
    (by rw [htlen]; omega) hne
  refine ⟨idx2, ?_⟩
  show read_rows_loop store limit (49 + 1) 0 [] [] none = _
  rw [read_rows_loop_step]
  simp only [hres, htlen, hip, List.nil_append]
  have hie : ((matchedRows store).take limit).isEmpty = false := by
    cases hc : (matchedRows store).take limit with
    | nil => exact absurd hc hne
    | cons a t => rfl
  simp [hie]

theorem read_rows_no_match (store : StoreModel) (limit : Nat)
    (hz : store.rows.filter matchesFilter = []) :
    read_rows store limit = some ([], []) := by
  have hm : matchedRows store = [] := by rw [matchedRows, hz]; rfl
  show read_rows_loop store limit (49 + 1) 0 [] [] none = _
  rw [read_rows_loop_step]
  simp [query_rows, hm]

/- ──────────────────────── Concrete stores for the fetch claims ──────────────────────── -/

/-- A matching row (date present, empty category relation) with the given id
suffix and date. -/
def rowW (i : Nat) (dt : String) : NotionPage :=
  { id := "r" ++ toString i
    url := ""
    properties := [(prop_date, .date (some { start := some dt })),
                   (prop_expense_type, .relation [])] }

/-- A five-row source in scrambled date order. -/
def storeW : StoreModel :=
  ⟨[rowW 1 "2024-01-03", rowW 2 "2024-01-01", rowW 3 "2024-01-05",
    rowW 4 "2024-01-02", rowW 5 "2024-01-04"]⟩

/-- A 51-row source: one more matching row than the fixed 50-row page size. -/
def bigStore : StoreModel := ⟨(List.range 51).map (fun i => rowW i "2024-01-01")⟩

/-- C6: a fetch with limit 3 against a source whose filtered match set has
five rows returns exactly the first three records of the date-descending
sort of the matching rows — the three most recent — where the sorted match
list is ordered date-descending and is a permutation of the filtered rows. -/
theorem fetch_limit3_returns_top3 (store : StoreModel)
    (h5 : (store.rows.filter matchesFilter).length = 5) :
    (∃ idx, read_rows store 3 =
      some (((matchedRows store).take 3).map normalize_page, idx))
    ∧ List.Sorted pageGe (matchedRows store)
    ∧ (matchedRows store).Perm (store.rows.filter matchesFilter) := by
  have hlen : (matchedRows store).length = 5 := by
    rw [matchedRows]
    exact (List.perm_insertionSort pageGe _).length_eq.trans h5
  refine ⟨read_rows_take store 3 (by omega) (by omega) (by omega), ?_, ?_⟩
  · exact List.sorted_insertionSort pageGe _
  · exact List.perm_insertionSort pageGe _

/-- Witness for C6 at a concrete five-row store. -/
theorem fetch_limit3_returns_top3_w :
    ((storeW.rows.filter matchesFilter).length = 5)
    ∧ ((∃ idx, read_rows storeW 3 =
        some (((matchedRows storeW).take 3).map normalize_page, idx))
      ∧ List.Sorted pageGe (matchedRows storeW)
      ∧ (matchedRows storeW).Perm (storeW.rows.filter matchesFilter)) :=
  ⟨by decide, fetch_limit3_returns_top3 storeW (by decide)⟩

/-- C2: evaluation of read_rows at a failing input for the pagination
contract.  Against a source with 51 matching rows and limit 51, the first
page returns the full 50 rows requested (not fewer) and signals has_more,
and the accumulated count 50 is below the limit — none of the three
documented stop conditions holds — yet read_rows returns just those 50
records: the inner-loop guard `seen >= len(data["results"])`
(notion_manager.py line 176) fires at the end of every first page, so the
next cursor is never followed. -/
theorem read_rows_stops_inside_first_page :
    (read_rows bigStore 51).map (fun p => p.1.length) = some 50
    ∧ (query_rows bigStore (min 50 (51 - 0)) none).results.length = 50
    ∧ (query_rows bigStore (min 50 (51 - 0)) none).has_more = true
    ∧ 50 < (matchedRows bigStore).length := by
  refine ⟨?_, ?_, ?_, ?_⟩ <;> decide

/-- A page with a title and a date but no number-typed property at all. -/
def pageNoAmount : NotionPage :=
  { id := "p9"
    url := ""
    properties := [(prop_title, .title [{ plain_text := some "Lunch" }]),
                   (prop_date, .date (some { start := some "2024-01-02" }))] }

/-- C9: the normalizer joins the plain_text parts of the title array, so the
parts ["Coffee ", " Run"] give "Coffee  Run"; a page with no number-typed
amount property normalizes the amount to the empty string at the extraction
stage and displays the dash placeholder; and for every input page the
displayed title is never empty. -/
theorem normalizer_roundtrip :
    text_of_title (.title [{ plain_text := some "Coffee " }, { plain_text := some " Run" }])
      = "Coffee  Run"
    ∧ amountValOf pageNoAmount.properties = some ""
    ∧ (normalize_page pageNoAmount).amount = "—"
    ∧ ∀ page : NotionPage, (normalize_page page).title ≠ "" := by
  refine ⟨by decide, by decide, by decide, ?_⟩
  intro page
  show pyOr (titleOf page.properties) "(untitled)" ≠ ""
  rcases h : titleOf page.properties with _ | s
  · simp [pyOr]
  · simp only [pyOr]
    split
    · simp
    · assumption

/- ──────────────────────── Helper lemmas: the tap handler ──────────────────────── -/

theorem failPath_effects (st1 : BotState) (chat : Int) (env : TapEnv) (effs : List Eff)
    (et : String) :
    (failPath st1 chat env effs et).effects =
      effs ++ [Eff.answer "Update failed ❌" false,
        Eff.send chat ("❌ Failed: <code>" ++ htmlEscape et ++ "</code>")] := by
  unfold failPath
  rcases env with ⟨uo, ro, eo, co, es, ue, se⟩
  cases es with
  | none => rfl
  | some mid =>
    cases hg : dictGet st1.user_messages chat with
    | none => simp [hg]
    | some l => simp [hg]

theorem failPath_state_cm (st1 : BotState) (chat : Int) (env : TapEnv) (effs : List Eff)
    (et : String) :
    (failPath st1 chat env effs et).state.callback_map = st1.callback_map := by
  unfold failPath
  rcases env with ⟨uo, ro, eo, co, es, ue, se⟩
  cases es with
  | none => rfl
  | some mid =>
    cases hg : dictGet st1.user_messages chat with
    | none => simp [hg]
    | some l => simp [hg]

theorem failPath_state_mint (st1 : BotState) (chat : Int) (env : TapEnv) (effs : List Eff)
    (et : String) :
    (failPath st1 chat env effs et).state.mint_chat = st1.mint_chat := by
  unfold failPath
  rcases env with ⟨uo, ro, eo, co, es, ue, se⟩
  cases es with
  | none => rfl
  | some mid =>
    cases hg : dictGet st1.user_messages chat with
    | none => simp [hg]
    | some l => simp [hg]

theorem failPath_um_isSome (st1 : BotState) (chat : Int) (env : TapEnv) (effs : List Eff)
    (et : String) (c : Int) (h : (dictGet st1.user_messages c).isSome) :
    (dictGet (failPath st1 chat env effs et).state.user_messages c).isSome := by
  unfold failPath
  rcases env with ⟨uo, ro, eo, co, es, ue, se⟩
  cases es with
  | none => exact h
  | some mid =>
    cases hg : dictGet st1.user_messages chat with
    | none => simpa [hg] using h
    | some l =>
      simp only [hg]
      exact dictGet_set_isSome _ _ _ _ h

theorem failPath_keyError (st1 : BotState) (chat : Int) (env : TapEnv) (effs : List Eff)
    (et : String) (h : (dictGet st1.user_messages chat).isSome) :
    (failPath st1 chat env effs et).keyError = false := by
  unfold failPath
  rcases env with ⟨uo, ro, eo, co, es, ue, se⟩
  cases es with
  | none => rfl
  | some mid =>
    cases hg : dictGet st1.user_messages chat with
    | none => rw [hg] at h; simp at h
    | some l => simp [hg]

theorem afterPop_state_cm (st1 : BotState) (txn exp : String) (chat msg : Int)
    (msgText : String) (env : TapEnv) :
    (afterPop st1 txn exp chat msg msgText env).state.callback_map = st1.callback_map := by
  unfold afterPop
  by_cases huo : env.update_ok
  · by_cases heo : env.edit_ok
    · simp [huo, heo]
    · by_cases hco : env.confirm_send_ok
      · simp [huo, heo, hco]
      · simp [huo, heo, hco, failPath_state_cm]
  · simp [huo, failPath_state_cm]

theorem afterPop_state_mint (st1 : BotState) (txn exp : String) (chat msg : Int)
    (msgText : String) (env : TapEnv) :
    (afterPop st1 txn exp chat msg msgText env).state.mint_chat = st1.mint_chat := by
  unfold afterPop
  by_cases huo : env.update_ok
  · by_cases heo : env.edit_ok
    · simp [huo, heo]
    · by_cases hco : env.confirm_send_ok
      · simp [huo, heo, hco]
      · simp [huo, heo, hco, failPath_state_mint]
  · simp [huo, failPath_state_mint]

theorem afterPop_um_isSome (st1 : BotState) (txn exp : String) (chat msg : Int)
    (msgText : String) (env : TapEnv) (c : Int)
    (h : (dictGet st1.user_messages c).isSome) :
    (dictGet (afterPop st1 txn exp chat msg msgText env).state.user_messages c).isSome := by
  unfold afterPop
  by_cases huo : env.update_ok
  · by_cases heo : env.edit_ok
    · simpa [huo, heo] using h
    · by_cases hco : env.confirm_send_ok
      · simpa [huo, heo, hco] using h
      · simpa [huo, heo, hco] using failPath_um_isSome _ _ _ _ _ c h
  · simpa [huo] using failPath_um_isSome _ _ _ _ _ c h

theorem afterPop_keyError (st1 : BotState) (txn exp : String) (chat msg : Int)
    (msgText : String) (env : TapEnv) (h : (dictGet st1.user_messages chat).isSome) :
    (afterPop st1 txn exp chat msg msgText env).keyError = false := by
  unfold afterPop
  by_cases huo : env.update_ok
  · by_cases heo : env.edit_ok
    · simp [huo, heo]
    · by_cases hco : env.confirm_send_ok
      · simp [huo, heo, hco]
      · simp [huo, heo, hco, failPath_keyError _ _ _ _ _ h]
  · simp [huo, failPath_keyError _ _ _ _ _ h]

theorem afterPop_setType_mem (st1 : BotState) (txn exp : String) (chat msg : Int)
    (msgText : String) (env : TapEnv) :
    Eff.setType txn exp ∈ (afterPop st1 txn exp chat msg msgText env).effects := by
  unfold afterPop
  by_cases huo : env.update_ok
  · by_cases heo : env.edit_ok
    · simp [huo, heo]
    · by_cases hco : env.confirm_send_ok
      · simp [huo, heo, hco]
      · simp [huo, heo, hco, failPath_effects]
  · simp [huo, failPath_effects]

theorem afterPop_hasAnswer (st1 : BotState) (txn exp : String) (chat msg : Int)
    (msgText : String) (env : TapEnv) :
    hasAnswer (afterPop st1 txn exp chat msg msgText env).effects = true := by
  unfold afterPop
  by_cases huo : env.update_ok
  · by_cases heo : env.edit_ok
    · simp [huo, heo, hasAnswer]
    · by_cases hco : env.confirm_send_ok
      · simp [huo, heo, hco, hasAnswer]
      · simp [huo, heo, hco, failPath_effects, hasAnswer]
  · simp [huo, failPath_effects, hasAnswer]

theorem dictPop_some_elim {κ α : Type} [DecidableEq κ] (m : List (κ × α)) (k : κ)
    (popped : α × List (κ × α)) (h : dictPop m k = some popped) :
    dictGet m k = some popped.1 ∧ popped.2 = dictErase m k := by
  unfold dictPop at h
  cases hg : dictGet m k with
  | none => rw [hg] at h; cases h
  | some v =>
    rw [hg] at h
    simp at h
    rw [← h]
    exact ⟨rfl, rfl⟩

theorem handle_set_pop (st : BotState) (key : String) (pr : String × String)
    (chat msg : Int) (msgText : String) (env : TapEnv)
    (hk : dictGet st.callback_map key = some pr) (hdk : key ≠ "disabled") :
    handle_set_type st (some ("SET:" ++ key)) chat msg msgText env =
      afterPop { st with callback_map := dictErase st.callback_map key } pr.1 pr.2
        chat msg msgText env := by
  unfold handle_set_type
  simp only [isSetData_append, setKey_append, hdk, dictPop_eq_some st.callback_map key pr hk,
    if_true, if_false, ite_false, ite_true]

theorem handle_set_notfound (st : BotState) (key : String) (chat msg : Int)
    (msgText : String) (env : TapEnv)
    (hk : dictGet st.callback_map key = none) (hdk : key ≠ "disabled") :
    handle_set_type st (some ("SET:" ++ key)) chat msg msgText env =
      { state := st, effects := [Eff.answer "Invalid/expired button." false],
        raised := false, keyError := false } := by
  unfold handle_set_type
  simp only [isSetData_append, setKey_append, hdk, dictPop_eq_none st.callback_map key hk,
    if_true, if_false, ite_false, ite_true]

/-- C1: a ticket key present in the store is consumed by the first tap that
carries it: the pop removes it before the update is attempted, the Category
Updater is called with the stored pair whatever the update outcome, and a
second tap with the same key (after any first-tap outcome) only answers
"Invalid/expired button." — no Updater call, no state change. -/
theorem ticket_single_use (st : BotState) (key : String) (pr : String × String)
    (chat msg chat2 msg2 : Int) (t t2 : String) (env1 env2 : TapEnv)
    (hk : dictGet st.callback_map key = some pr) (hdk : key ≠ "disabled") :
    dictGet (handle_set_type st (some ("SET:" ++ key)) chat msg t env1).state.callback_map key
      = none
    ∧ Eff.setType pr.1 pr.2 ∈ (handle_set_type st (some ("SET:" ++ key)) chat msg t env1).effects
    ∧ (handle_set_type (handle_set_type st (some ("SET:" ++ key)) chat msg t env1).state
        (some ("SET:" ++ key)) chat2 msg2 t2 env2).effects
      = [Eff.answer "Invalid/expired button." false]
    ∧ (handle_set_type (handle_set_type st (some ("SET:" ++ key)) chat msg t env1).state
        (some ("SET:" ++ key)) chat2 msg2 t2 env2).state
      = (handle_set_type st (some ("SET:" ++ key)) chat msg t env1).state := by
  have h1 := handle_set_pop st key pr chat msg t env1 hk hdk
  have hnone : dictGet (handle_set_type st (some ("SET:" ++ key)) chat msg t
      env1).state.callback_map key = none := by
    rw [h1, afterPop_state_cm]
    exact dictGet_erase_self _ _
  have h2 := handle_set_notfound (handle_set_type st (some ("SET:" ++ key)) chat msg t
    env1).state key chat2 msg2 t2 env2 hnone hdk
  refine ⟨hnone, ?_, ?_, ?_⟩
  · rw [h1]
    exact afterPop_setType_mem _ _ _ _ _ _ _
  · rw [h2]
  · rw [h2]

/-- A concrete one-ticket bot state. -/
def stOneTicket : BotState :=
  { user_messages := [(1, [5])]
    callback_map := [("k1", ("t1", "c1"))]
    mint_chat := [("k1", 1)] }

/-- A tap environment whose backend update fails. -/
def envUpdateFails : TapEnv :=
  { update_ok := false, remove_ok := true, edit_ok := true, confirm_send_ok := true
    err_send := some 9, update_err := "gone", send_err := "" }

/-- A tap environment where everything succeeds. -/
def envAllOk : TapEnv :=
  { update_ok := true, remove_ok := true, edit_ok := true, confirm_send_ok := true
    err_send := some 9, update_err := "", send_err := "" }

/-- Witness for C1: a concrete one-ticket store, a first tap whose update
fails, then a second tap on the same key. -/
theorem ticket_single_use_w :
    (dictGet stOneTicket.callback_map "k1" = some ("t1", "c1"))
    ∧ ("k1" : String) ≠ "disabled"
    ∧ (dictGet (handle_set_type stOneTicket (some ("SET:" ++ "k1")) 1 5 "Body"
          envUpdateFails).state.callback_map "k1" = none
      ∧ Eff.setType "t1" "c1" ∈ (handle_set_type stOneTicket (some ("SET:" ++ "k1")) 1 5 "Body"
          envUpdateFails).effects
      ∧ (handle_set_type (handle_set_type stOneTicket (some ("SET:" ++ "k1")) 1 5 "Body"
            envUpdateFails).state (some ("SET:" ++ "k1")) 1 5 "Body" envAllOk).effects
        = [Eff.answer "Invalid/expired button." false]
      ∧ (handle_set_type (handle_set_type stOneTicket (some ("SET:" ++ "k1")) 1 5 "Body"
            envUpdateFails).state (some ("SET:" ++ "k1")) 1 5 "Body" envAllOk).state
        = (handle_set_type stOneTicket (some ("SET:" ++ "k1")) 1 5 "Body"
            envUpdateFails).state) :=
  ⟨by decide, by decide,
    ticket_single_use stOneTicket "k1" ("t1", "c1") 1 5 1 5 "Body" "Body"
      envUpdateFails envAllOk (by decide) (by decide)⟩

/-- C5: every control path of the tap handler acknowledges the tap: on
missing or non-matching data, on the "disabled" sentinel, on an
unknown/consumed key, and on both update outcomes including all combinations
of secondary failures, the effect list contains an answer_callback_query
call. -/
theorem tap_always_acknowledged (st : BotState) (cdata : Option String) (chat msg : Int)
    (msgText : String) (env : TapEnv) :
    hasAnswer (handle_set_type st cdata chat msg msgText env).effects = true := by
  cases cdata with
  | none => rfl
  | some data =>
    unfold handle_set_type
    by_cases hs : isSetData data = true
    · simp only [hs, if_true, ite_true]
      by_cases hkd : setKey data = "disabled"
      · simp [hkd, hasAnswer]
      · simp only [hkd, if_false, ite_false]
        cases hp : dictPop st.callback_map (setKey data) with
        | none => simp [hasAnswer]
        | some popped => exact afterPop_hasAnswer _ _ _ _ _ _ _
    · simp [hs, hasAnswer]

/-- A tap environment where the update succeeds but both the
success-annotation edit and the fallback confirmation send fail. -/
def envEditAndSendFail : TapEnv :=
  { update_ok := true, remove_ok := true, edit_ok := false, confirm_send_ok := false
    err_send := some 9, update_err := "", send_err := "boom" }

/-- C3 counterexample: with the backend update succeeding, a failure of the
success-annotation edit followed by a failure of the fallback confirmation
send lands in the outer except block (telegram_manager.py line 162), so the
handler acknowledges "Update failed ❌" after having acknowledged
"Updated ✅" — a secondary-operation failure that escapes its call site and
reports the interaction as failed although the remote-store update
succeeded. -/
theorem secondary_failure_reports_failed_cex :
    envEditAndSendFail.update_ok = true
    ∧ Eff.answer "Updated ✅" false
      ∈ (handle_set_type stOneTicket (some "SET:k1") 1 5 "Body" envEditAndSendFail).effects
    ∧ Eff.answer "Update failed ❌" false
      ∈ (handle_set_type stOneTicket (some "SET:k1") 1 5 "Body" envEditAndSendFail).effects := by
  refine ⟨rfl, ?_, ?_⟩ <;> decide

/-- C3 (amended): when the backend update succeeds, failures of the
button-set removal never propagate, and a failure of the success-annotation
edit is contained provided its fallback confirmation send succeeds: on every
such path the handler answers "Updated ✅", never answers "Update failed ❌",
and raises nothing.  (Only when the annotation edit and its fallback send
both fail does the outer except report the interaction as failed.) -/
theorem secondary_failures_contained (st : BotState) (key : String) (pr : String × String)
    (chat msg : Int) (t : String) (env : TapEnv)
    (hk : dictGet st.callback_map key = some pr) (hdk : key ≠ "disabled")
    (hu : env.update_ok = true) (hok : env.edit_ok = true ∨ env.confirm_send_ok = true) :
    (handle_set_type st (some ("SET:" ++ key)) chat msg t env).raised = false
    ∧ Eff.answer "Updated ✅" false
      ∈ (handle_set_type st (some ("SET:" ++ key)) chat msg t env).effects
    ∧ Eff.answer "Update failed ❌" false
      ∉ (handle_set_type st (some ("SET:" ++ key)) chat msg t env).effects := by
  rw [handle_set_pop st key pr chat msg t env hk hdk]
  unfold afterPop
  have hne1 : Eff.answer "Updated ✅" false ≠ Eff.answer "Update failed ❌" false := by decide
  rcases hok with heo | hco
  · simp [hu, heo, hne1.symm]
  · by_cases heo : env.edit_ok
    · simp [hu, heo, hne1.symm]
    · simp [hu, heo, hco, hne1.symm]

/-- Witness for C3 (amended): concrete store, failing annotation edit with a
succeeding fallback send. -/
theorem secondary_failures_contained_w :
    (dictGet stOneTicket.callback_map "k1" = some ("t1", "c1"))
    ∧ ("k1" : String) ≠ "disabled"
    ∧ ({ update_ok := true, remove_ok := false, edit_ok := false, confirm_send_ok := true,
         err_send := some 9, update_err := "", send_err := "" } : TapEnv).update_ok = true
    ∧ ((handle_set_type stOneTicket (some ("SET:" ++ "k1")) 1 5 "Body"
          { update_ok := true, remove_ok := false, edit_ok := false, confirm_send_ok := true,
            err_send := some 9, update_err := "", send_err := "" }).raised = false
      ∧ Eff.answer "Updated ✅" false
        ∈ (handle_set_type stOneTicket (some ("SET:" ++ "k1")) 1 5 "Body"
          { update_ok := true, remove_ok := false, edit_ok := false, confirm_send_ok := true,
            err_send := some 9, update_err := "", send_err := "" }).effects
      ∧ Eff.answer "Update failed ❌" false
        ∉ (handle_set_type stOneTicket (some ("SET:" ++ "k1")) 1 5 "Body"
          { update_ok := true, remove_ok := false, edit_ok := false, confirm_send_ok := true,
            err_send := some 9, update_err := "", send_err := "" }).effects) :=
  ⟨by decide, by decide, rfl,
    secondary_failures_contained stOneTicket "k1" ("t1", "c1") 1 5 "Body"
      { update_ok := true, remove_ok := false, edit_ok := false, confirm_send_ok := true,
        err_send := some 9, update_err := "", send_err := "" }
      (by decide) (by decide) rfl (Or.inr rfl)⟩

/-- C4 counterexample: the mint operation has no guard against the sentinel —
when the six random bytes drawn by secrets.token_urlsafe are
[118, 43, 26, 110, 87, 157], whose URL-safe base64 encoding is the string
"disabled", _store_cb returns exactly the key "disabled". -/
theorem mint_returns_disabled_cex :
    (store_cb initState "txn" "exp" [118, 43, 26, 110, 87, 157]).2 = "disabled" := by decide

/-- C4 (amended): the key _store_cb returns equals "disabled" exactly when
the six random bytes drawn are [118, 43, 26, 110, 87, 157] — a single
2⁻⁴⁸-probability draw, not excluded by any guard in the code — and a tap
carrying the key "disabled" is always answered with the
"No categories configured." alert before the ticket store is consulted:
the state is unchanged and no Category Updater call is made. -/
theorem disabled_sentinel (b1 b2 b3 b4 b5 b6 : Nat) (st0 : BotState) (txn exp : String)
    (h1 : b1 < 256) (h2 : b2 < 256) (h3 : b3 < 256) (h4 : b4 < 256) (h5 : b5 < 256)
    (h6 : b6 < 256) (st : BotState) (chat msg : Int) (t : String) (env : TapEnv) :
    ((store_cb st0 txn exp [b1, b2, b3, b4, b5, b6]).2 = "disabled"
      ↔ [b1, b2, b3, b4, b5, b6] = [118, 43, 26, 110, 87, 157])
    ∧ handle_set_type st (some "SET:disabled") chat msg t env =
      { state := st, effects := [Eff.answer "No categories configured." true],
        raised := false, keyError := false } := by
  constructor
  · constructor
    · intro h
      have htok : token_urlsafe [b1, b2, b3, b4, b5, b6] = "disabled" := h
      obtain ⟨e1, e2, e3, e4, e5, e6⟩ :=
        disabled_preimage b1 b2 b3 b4 b5 b6 h1 h2 h3 h4 h5 h6 htok
      rw [e1, e2, e3, e4, e5, e6]
    · intro h
      have hlist : ([b1, b2, b3, b4, b5, b6] : List Nat) = [118, 43, 26, 110, 87, 157] := h
      show token_urlsafe [b1, b2, b3, b4, b5, b6] = "disabled"
      rw [hlist]
      decide
  · rfl

/-- Witness for C4 (amended) at the exact preimage bytes. -/
theorem disabled_sentinel_w :
    ((118 : Nat) < 256 ∧ (43 : Nat) < 256 ∧ (26 : Nat) < 256 ∧ (110 : Nat) < 256
      ∧ (87 : Nat) < 256 ∧ (157 : Nat) < 256)
    ∧ (((store_cb initState "txn" "exp" [118, 43, 26, 110, 87, 157]).2 = "disabled"
        ↔ ([118, 43, 26, 110, 87, 157] : List Nat) = [118, 43, 26, 110, 87, 157])
      ∧ handle_set_type stOneTicket (some "SET:disabled") 1 5 "Body" envAllOk =
        { state := stOneTicket, effects := [Eff.answer "No categories configured." true],
          raised := false, keyError := false }) :=
  ⟨by decide,
    disabled_sentinel 118 43 26 110 87 157 initState "txn" "exp"
      (by decide) (by decide) (by decide) (by decide) (by decide) (by decide)
      stOneTicket 1 5 "Body" envAllOk⟩

/- ──────────────────────── Helper lemmas: the review command ──────────────────────── -/

theorem appendMsg_drain (st : BotState) (chat : Int) (mid : Int) :
    appendMsg (drain_and_clear st chat).2 chat mid =
      some { st with
        user_messages := dictSet (dictSet st.user_messages chat []) chat ([] ++ [mid]) } := by
  unfold appendMsg drain_and_clear
  simp [dictGet_set_self]

theorem deletesOf_append (l1 l2 : List Eff) :
    deletesOf (l1 ++ l2) = deletesOf l1 ++ deletesOf l2 := by
  simp [deletesOf, List.filterMap_append]

theorem sendsOf_append (l1 l2 : List Eff) :
    sendsOf (l1 ++ l2) = sendsOf l1 ++ sendsOf l2 := by
  simp [sendsOf, List.filterMap_append]

theorem deletesOf_of_deletes (chat : Int) (l : List Int) :
    deletesOf (l.map (fun m => Eff.delete chat m)) = l.map (fun m => (chat, m)) := by
  induction l with
  | nil => rfl
  | cons a t ih => simpa [deletesOf, List.filterMap_cons] using ih

theorem sendsOf_of_deletes (chat : Int) (l : List Int) :
    sendsOf (l.map (fun m => Eff.delete chat m)) = [] := by
  induction l with
  | nil => rfl
  | cons a t ih => simp [sendsOf, List.filterMap_cons]

theorem deletesOf_send_records (cfg : List (String × Option String)) (chat : Int) :
    ∀ (recs : List NormRecord) (st : BotState) (mids : List Int)
      (ents : List (List (List Nat))),
    deletesOf (send_records cfg st chat recs mids ents).2.1 = [] := by
  intro recs
  induction recs with
  | nil => intro st mids ents; rfl
  | cons rec rest ih =>
    intro st mids ents
    simp only [send_records]
    split
    · simp [deletesOf]
    · rename_i st2 heq
      simp only [deletesOf, List.filterMap_cons]
      exact ih st2 mids.tail ents.tail

/-- C7: at the start of each review batch every previously logged message id
is targeted for deletion — the delete effects are exactly one per logged id,
issued before anything else and unconditionally, since individual failures
are swallowed — the remainder of the batch contains no delete, the log is
reset to the empty list by the drain step before any message of the new
batch is appended, and draining twice with no sends in between returns the
logged sequence first and the empty sequence second. -/
theorem drain_and_clear_spec (cfg : List (String × Option String)) (st : BotState)
    (chat : Int) (env : ReviewEnv) :
    (∃ rest, (categorise_transactions cfg st chat env).effects
        = (dictGetD st.user_messages chat []).map (fun m => Eff.delete chat m) ++ rest
      ∧ deletesOf rest = [])
    ∧ dictGet (drain_and_clear st chat).2.user_messages chat = some []
    ∧ (drain_and_clear st chat).1 = dictGetD st.user_messages chat []
    ∧ (drain_and_clear (drain_and_clear st chat).2 chat).1 = [] := by
  refine ⟨?_, by simp [drain_and_clear, dictGet_set_self], rfl,
    by simp [drain_and_clear, dictGetD, dictGet_set_self]⟩
  obtain ⟨lid, fetch, sids, ents⟩ := env
  simp only [categorise_transactions]
  rw [appendMsg_drain]
  cases fetch with
  | upstream =>
    exact ⟨[Eff.send chat "🔎 Gathering transactions, please wait…"], rfl, rfl⟩
  | valueError =>
    exact ⟨[Eff.send chat "🔎 Gathering transactions, please wait…",
      Eff.editText "✅ Nothing to categorise. ValueError encountered" chat lid], rfl, rfl⟩
  | ok records =>
    by_cases hr : records.isEmpty
    · simp only [hr, if_true, ite_true]
      exact ⟨[Eff.send chat "🔎 Gathering transactions, please wait…",
        Eff.editText "✅ Nothing to categorise." chat lid], rfl, rfl⟩
    · simp only [hr, if_false, ite_false]
      refine ⟨[Eff.send chat "🔎 Gathering transactions, please wait…",
        Eff.editText ("Found " ++ toString records.length ++ " uncategorised record(s):")
          chat lid] ++ (send_records cfg { st with
            user_messages := dictSet (dictSet st.user_messages chat []) chat ([] ++ [lid]) }
          chat records sids ents).2.1, ?_, ?_⟩
      · simp [drain_and_clear]
      · rw [deletesOf_append, deletesOf_send_records]
        simp [deletesOf]

/-- C8: a fetch against a source with no matching rows returns the empty
record list and empty index without signalling an error, for every limit;
and a review run whose fetch comes back empty edits the placeholder to the
"✅ Nothing to categorise." notice, raises nothing, and sends no record
message — the only send is the loading placeholder itself. -/
theorem zero_rows_not_error (store : StoreModel) (limit : Nat)
    (cfg : List (String × Option String)) (st : BotState) (chat : Int) (env : ReviewEnv)
    (hz : store.rows.filter matchesFilter = []) (hf : env.fetch = .ok []) :
    read_rows store limit = some ([], [])
    ∧ (categorise_transactions cfg st chat env).raised = false
    ∧ Eff.editText "✅ Nothing to categorise." chat env.loading_id
      ∈ (categorise_transactions cfg st chat env).effects
    ∧ sendsOf (categorise_transactions cfg st chat env).effects
      = [(chat, "🔎 Gathering transactions, please wait…")] := by
  refine ⟨read_rows_no_match store limit hz, ?_⟩
  obtain ⟨lid, fetch, sids, ents⟩ := env
  simp only at hf
  simp only [categorise_transactions]
  rw [appendMsg_drain, hf]
  refine ⟨rfl, by simp, ?_⟩
  simp [sendsOf_append, sendsOf_of_deletes, sendsOf]

/- ──────────────────────── Helper lemmas: the mint/log invariant ──────────────────────── -/

theorem inv_initState : MintedInv initState := by
  intro k pr h
  cases h

theorem inv_set_um (st : BotState) (c0 : Int) (l : List Int) (hi : MintedInv st) :
    MintedInv { st with user_messages := dictSet st.user_messages c0 l } := by
  intro k pr hk
  obtain ⟨c, hc, hs⟩ := hi k pr hk
  exact ⟨c, hc, dictGet_set_isSome _ _ _ _ hs⟩

theorem appendMsg_elim (st : BotState) (c0 : Int) (mid : Int) (st2 : BotState)
    (h : appendMsg st c0 mid = some st2) :
    ∃ l, dictGet st.user_messages c0 = some l
      ∧ st2 = { st with user_messages := dictSet st.user_messages c0 (l ++ [mid]) } := by
  unfold appendMsg at h
  cases hg : dictGet st.user_messages c0 with
  | none => rw [hg] at h; cases h
  | some l =>
    rw [hg] at h
    simp at h
    exact ⟨l, rfl, h.symm⟩

theorem handle_cm_sub (st : BotState) (cdata : Option String) (chat msg : Int) (t : String)
    (env : TapEnv) (k : String) (pr : String × String)
    (h : dictGet (handle_set_type st cdata chat msg t env).state.callback_map k = some pr) :
    dictGet st.callback_map k = some pr := by
  cases cdata with
  | none => exact h
  | some data =>
    unfold handle_set_type at h
    by_cases hs : isSetData data = true
    · simp only [hs, if_true, ite_true] at h
      by_cases hkd : setKey data = "disabled"
      · simpa [hkd] using h
      · simp only [hkd, if_false, ite_false] at h
        cases hp : dictPop st.callback_map (setKey data) with
        | none => rw [hp] at h; exact h
        | some popped =>
          rw [hp] at h
          rw [afterPop_state_cm] at h
          obtain ⟨hv, h2⟩ := dictPop_some_elim _ _ _ hp
          dsimp only at h
          rw [h2] at h
          exact dictGet_erase_sub _ _ _ _ h
    · simp only [hs, if_false, ite_false] at h
      exact h

theorem handle_mint_eq (st : BotState) (cdata : Option String) (chat msg : Int) (t : String)
    (env : TapEnv) :
    (handle_set_type st cdata chat msg t env).state.mint_chat = st.mint_chat := by
  cases cdata with
  | none => rfl
  | some data =>
    unfold handle_set_type
    by_cases hs : isSetData data = true
    · simp only [hs, if_true, ite_true]
      by_cases hkd : setKey data = "disabled"
      · simp [hkd]
      · simp only [hkd, if_false, ite_false]
        cases hp : dictPop st.callback_map (setKey data) with
        | none => rfl
        | some popped => rw [afterPop_state_mint]
    · simp [hs]

theorem handle_um_isSome (st : BotState) (cdata : Option String) (chat msg : Int)
    (t : String) (env : TapEnv) (c : Int) (h : (dictGet st.user_messages c).isSome) :
    (dictGet (handle_set_type st cdata chat msg t env).state.user_messages c).isSome := by
  cases cdata with
  | none => exact h
  | some data =>
    unfold handle_set_type
    by_cases hs : isSetData data = true
    · simp only [hs, if_true, ite_true]
      by_cases hkd : setKey data = "disabled"
      · simpa [hkd] using h
      · simp only [hkd, if_false, ite_false]
        cases hp : dictPop st.callback_map (setKey data) with
        | none => exact h
        | some popped => exact afterPop_um_isSome _ _ _ _ _ _ _ c h
    · simpa [hs] using h

theorem inv_handle (st : BotState) (cdata : Option String) (chat msg : Int) (t : String)
    (env : TapEnv) (hi : MintedInv st) :
    MintedInv (handle_set_type st cdata chat msg t env).state := by
  intro k pr hk
  obtain ⟨c, hc, hs⟩ := hi k pr (handle_cm_sub st cdata chat msg t env k pr hk)
  refine ⟨c, ?_, handle_um_isSome st cdata chat msg t env c hs⟩
  rw [handle_mint_eq]
  exact hc

theorem mintButtons_um (chat : Int) (txn : String) :
    ∀ (cats : List (String × Option String)) (ents : List (List Nat)) (st : BotState),
    (mintButtons st chat txn cats ents).1.user_messages = st.user_messages := by
  intro cats
  induction cats with
  | nil => intro ents st; rfl
  | cons cat rest ih =>
    intro ents st
    obtain ⟨name, oid⟩ := cat
    cases oid with
    | none => exact ih ents st
    | some exp =>
      simp only [mintButtons, store_cb]
      rw [ih]

theorem inv_mintButtons (chat : Int) (txn : String) :
    ∀ (cats : List (String × Option String)) (ents : List (List Nat)) (st : BotState),
    MintedInv st → (dictGet st.user_messages chat).isSome →
    MintedInv (mintButtons st chat txn cats ents).1 := by
  intro cats
  induction cats with
  | nil => intro ents st hi hc; exact hi
  | cons cat rest ih =>
    intro ents st hi hc
    obtain ⟨name, oid⟩ := cat
    cases oid with
    | none => exact ih ents st hi hc
    | some exp =>
      simp only [mintButtons, store_cb]
      apply ih
      · intro k pr hk
        by_cases hkey : k = token_urlsafe (ents.headD [])
        · subst hkey
          refine ⟨chat, dictGet_set_self _ _ _, hc⟩
        · dsimp only at hk
          rw [dictGet_set_ne _ _ _ _ hkey] at hk
          obtain ⟨c, hc2, hs2⟩ := hi k pr hk
          refine ⟨c, ?_, hs2⟩
          dsimp only
          rw [dictGet_set_ne _ _ _ _ hkey]
          exact hc2
      · exact hc

theorem keyboard_for_state (cfg : List (String × Option String)) (st : BotState)
    (chat : Int) (txn : String) (ents : List (List Nat)) :
    (keyboard_for cfg st chat txn ents).1 = (mintButtons st chat txn cfg ents).1 := by
  simp only [keyboard_for]
  by_cases h : (mintButtons st chat txn cfg ents).2.isEmpty <;> simp [h]

theorem inv_send_records (cfg : List (String × Option String)) (chat : Int) :
    ∀ (recs : List NormRecord) (st : BotState) (mids : List Int)
      (ents : List (List (List Nat))),
    MintedInv st → (dictGet st.user_messages chat).isSome →
    MintedInv (send_records cfg st chat recs mids ents).1 := by
  intro recs
  induction recs with
  | nil => intro st mids ents hi hc; exact hi
  | cons rec rest ih =>
    intro st mids ents hi hc
    simp only [send_records]
    have hikb : MintedInv (keyboard_for cfg st chat rec.page_id (ents.headD [])).1 := by
      rw [keyboard_for_state]
      exact inv_mintButtons chat rec.page_id cfg (ents.headD []) st hi hc
    have hckb : (dictGet (keyboard_for cfg st chat rec.page_id
        (ents.headD [])).1.user_messages chat).isSome := by
      rw [keyboard_for_state, mintButtons_um]
      exact hc
    cases ha : appendMsg (keyboard_for cfg st chat rec.page_id (ents.headD [])).1 chat
        (mids.headD 0) with
    | none => exact hikb
    | some st2 =>
      obtain ⟨l, hl, hst2⟩ := appendMsg_elim _ _ _ _ ha
      apply ih
      · rw [hst2]
        exact inv_set_um _ _ _ hikb
      · rw [hst2]
        show (dictGet (dictSet (keyboard_for cfg st chat rec.page_id
          (ents.headD [])).1.user_messages chat (l ++ [mids.headD 0])) chat).isSome
        rw [dictGet_set_self]
        rfl

theorem inv_categorise (cfg : List (String × Option String)) (st : BotState) (chat : Int)
    (env : ReviewEnv) (hi : MintedInv st) :
    MintedInv (categorise_transactions cfg st chat env).state := by
  obtain ⟨lid, fetch, sids, ents⟩ := env
  simp only [categorise_transactions]
  rw [appendMsg_drain]
  have hst2 : MintedInv { st with
      user_messages := dictSet (dictSet st.user_messages chat []) chat ([] ++ [lid]) } := by
    have h1 : MintedInv { st with user_messages := dictSet st.user_messages chat [] } :=
      inv_set_um _ _ _ hi
    have h2 := inv_set_um { st with user_messages := dictSet st.user_messages chat [] }
      chat ([] ++ [lid]) h1
    exact h2
  have hc2 : (dictGet ({ st with
      user_messages := dictSet (dictSet st.user_messages chat []) chat ([] ++ [lid]) } :
      BotState).user_messages chat).isSome := by
    show (dictGet (dictSet (dictSet st.user_messages chat []) chat ([] ++ [lid])) chat).isSome
    rw [dictGet_set_self]
    rfl
  cases fetch with
  | upstream => exact hst2
  | valueError => exact hst2
  | ok records =>
    by_cases hr : records.isEmpty
    · simp only [hr, if_true, ite_true]
      exact hst2
    · simp only [hr, if_false, ite_false]
      exact inv_send_records cfg chat records _ sids ents hst2 hc2

theorem reaches_inv (cfg : List (String × Option String)) (st : BotState)
    (h : Reaches cfg st) : MintedInv st := by
  induction h with
  | init => exact inv_initState
  | review st1 chat env hr ih => exact inv_categorise cfg st1 chat env ih
  | tap st1 chat msg cdata t env hr htap ih => exact inv_handle st1 cdata chat msg t env ih

/-- C10: in every reachable orchestrator state, a live ticket points — via
the ghost mint conversation — to a conversation that has an entry in the
message-log map, so a valid tap (one delivered on the message whose keyboard
carried the key) can never hit the missing-key error in the unguarded
append on the update-failure path: the handler's keyError flag is false. -/
theorem log_entry_invariant (cfg : List (String × Option String)) (st : BotState)
    (chat msg : Int) (cdata : Option String) (msgText : String) (env : TapEnv)
    (hr : Reaches cfg st) (ht : tapOk st chat cdata = true) :
    MintedInv st ∧ (handle_set_type st cdata chat msg msgText env).keyError = false := by
  have hi := reaches_inv cfg st hr
  refine ⟨hi, ?_⟩
  cases cdata with
  | none => rfl
  | some data =>
    unfold handle_set_type
    by_cases hs : isSetData data = true
    · simp only [hs, if_true, ite_true]
      by_cases hkd : setKey data = "disabled"
      · simp [hkd]
      · simp only [hkd, if_false, ite_false]
        cases hp : dictPop st.callback_map (setKey data) with
        | none => rfl
        | some popped =>
          obtain ⟨hv, h2⟩ := dictPop_some_elim _ _ _ hp
          have hmc : dictGet st.mint_chat (setKey data) = some chat := by
            unfold tapOk at ht
            simp only [hs, if_true, ite_true, hv] at ht
            exact of_decide_eq_true ht
          obtain ⟨c, hc, hsome⟩ := hi (setKey data) popped.1 hv
          have hcc : c = chat := by
            rw [hc] at hmc
            exact Option.some.inj hmc
          apply afterPop_keyError
          show (dictGet st.user_messages chat).isSome
          rw [← hcc]
          exact hsome
    · simp [hs]

/-- A one-category configuration. -/
def cfgW : List (String × Option String) := [("Food", some "food-1")]

/-- A concrete normalized record. -/
def recW : NormRecord :=
  { page_id := "txn-1", title := "Lunch", date := "2024-01-02", amount := "7"
    url := "", has_expense_type := false }

/-- A review environment delivering one record, with zero entropy bytes so
the minted key is "AAAAAAAA". -/
def envReviewW : ReviewEnv :=
  { loading_id := 10, fetch := .ok [recW], send_ids := [11]
    entropies := [[[0, 0, 0, 0, 0, 0]]] }

/-- Witness for C10: review one record into chat 1, then tap its button with
a failing backend update — the unguarded append succeeds. -/
theorem log_entry_invariant_w :
    (tapOk (categorise_transactions cfgW initState 1 envReviewW).state 1
      (some "SET:AAAAAAAA") = true)
    ∧ (MintedInv (categorise_transactions cfgW initState 1 envReviewW).state
      ∧ (handle_set_type (categorise_transactions cfgW initState 1 envReviewW).state
          (some "SET:AAAAAAAA") 1 5 "Body" envUpdateFails).keyError = false) :=
  ⟨by decide,
    log_entry_invariant cfgW (categorise_transactions cfgW initState 1 envReviewW).state
      1 5 (some "SET:AAAAAAAA") "Body" envUpdateFails
      (Reaches.review initState 1 envReviewW Reaches.init) (by decide)⟩

/-- A review environment whose fetch comes back empty. -/
def envEmptyW : ReviewEnv :=
  { loading_id := 7, fetch := .ok [], send_ids := [], entropies := [] }

/-- Witness for C8 at the empty store and an empty fetch outcome. -/
theorem zero_rows_not_error_w :
    ((⟨[]⟩ : StoreModel).rows.filter matchesFilter = []
      ∧ envEmptyW.fetch = FetchOutcome.ok [])
    ∧ (read_rows ⟨[]⟩ 50 = some ([], [])
      ∧ (categorise_transactions [] initState 1 envEmptyW).raised = false
      ∧ Eff.editText "✅ Nothing to categorise." 1 envEmptyW.loading_id
        ∈ (categorise_transactions [] initState 1 envEmptyW).effects
      ∧ sendsOf (categorise_transactions [] initState 1 envEmptyW).effects
        = [(1, "🔎 Gathering transactions, please wait…")]) :=
  ⟨⟨rfl, rfl⟩, zero_rows_not_error ⟨[]⟩ 50 [] initState 1 envEmptyW rfl rfl⟩
